import Mathlib

/-!
Shallow embedding of `src_mcu/src/main.cpp` (Ambre chamber firmware).

Modelling conventions:
* C `float` values are modelled as `ℚ`; a possibly-NaN float is `Option ℚ`
  with `none` standing for NaN.  The firmware never does float arithmetic on
  these values, only comparisons and constant assignments, so `ℚ` is exact.
* IEEE comparisons against NaN are all false; `floatGt`, `floatLt`, `floatLe`
  encode this for `Option ℚ`.
* `uint32_t` millisecond arithmetic (`millis()`, `now - tick`) is modelled on
  `Nat` with explicit reduction modulo `2^32 = 4294967296` (`elapsed32`).
* Hardware side effects are recorded in the state: `neo_color`/`neo_bright`
  are the last values given to the NeoPixel driver, `valve_pin` is the level
  of `PIN_SOLENOID_VALVE` (`true` = HIGH), serial output is the `SerialOut`
  value returned by a loop step.  Formatting of floats onto the serial line
  (Arduino `String(x, ndecimals)`) is an external-library boundary; the
  `SerialOut` constructors carry the exact values handed to it.
* `parseFloatInString` comes from the external `DvG_SerialCommand` library;
  the loop is parameterised over it (`parse : String → Nat → ℚ`, arguments
  being the command string and the start offset, here always 2).
-/

/-- RGB color triple as produced by `neo.Color(r, g, b)`. -/
structure Color where
  r : Nat
  g : Nat
  b : Nat
deriving DecidableEq, Repr

/-- Blue `neo.Color(0, 0, 255)`: shown while in `setup()`. -/
def colorBlue : Color := ⟨0, 0, 255⟩

/-- Green `neo.Color(0, 255, 0)`: all okay. -/
def colorGreen : Color := ⟨0, 255, 0⟩

/-- Red `neo.Color(255, 0, 0)`: sensor communication error. -/
def colorRed : Color := ⟨255, 0, 0⟩

/-- `#define NEO_DIM 3` — brightness level for dim intensity. -/
def NEO_DIM : Nat := 3

/-- `#define NEO_BRIGHT 8` — brightness level for bright intensity. -/
def NEO_BRIGHT : Nat := 8

/-- `#define UPDATE_PERIOD_DS18B20 1000` (ms). -/
def UPDATE_PERIOD_DS18B20 : Nat := 1000

/-- `#define UPDATE_PERIOD_DHT22 2000` (ms). -/
def UPDATE_PERIOD_DHT22 : Nat := 2000

/-- IEEE `v > c` where `v` may be NaN (`none`): NaN compares false. -/
def floatGt (v : Option ℚ) (c : ℚ) : Bool :=
  match v with
  | none => false
  | some x => decide (c < x)

/-- IEEE `v < c` where `v` may be NaN (`none`): NaN compares false. -/
def floatLt (v : Option ℚ) (c : ℚ) : Bool :=
  match v with
  | none => false
  | some x => decide (x < c)

/-- IEEE `v <= c` where `v` may be NaN (`none`): NaN compares false. -/
def floatLe (v : Option ℚ) (c : ℚ) : Bool :=
  match v with
  | none => false
  | some x => decide (x ≤ c)

/-- C `isnan(v)` on the `Option ℚ` float model. -/
def isnan (v : Option ℚ) : Bool := v.isNone

/-- Arduino `constrain(amt, low, high)` =
`((amt)<(low)?(low):((amt)>(high)?(high):(amt)))`. -/
def constrain (x lo hi : ℚ) : ℚ :=
  if x < lo then lo else if x > hi then hi else x

/-- The firmware's mutable state: the module-level globals of `main.cpp`
plus the `static` locals of `loop()` and the recorded hardware outputs. -/
structure ChamberState where
  /-- global `float ds18_temp` (NaN = `none`), temperature in Celsius. -/
  ds18_temp : Option ℚ
  /-- global `float dht22_humi` (NaN = `none`), relative humidity in %. -/
  dht22_humi : Option ℚ
  /-- global `float dht22_temp` (NaN = `none`), temperature in Celsius. -/
  dht22_temp : Option ℚ
  /-- global `bool is_valve_open`. -/
  is_valve_open : Bool
  /-- global `float humi_threshold`. -/
  humi_threshold : ℚ
  /-- global `bool open_valve_when_super_humi`. -/
  open_valve_when_super_humi : Bool
  /-- `static uint32_t dht22_tick` in `loop()`, a `uint32` modelled as `Nat`. -/
  dht22_tick : Nat
  /-- `static uint32_t ds18_tick` in `loop()`, a `uint32` modelled as `Nat`. -/
  ds18_tick : Nat
  /-- `static bool toggle_LED` in `loop()`. -/
  toggle_LED : Bool
  /-- last color handed to `neo.setPixelColor`. -/
  neo_color : Color
  /-- last brightness handed to `neo.setBrightness`. -/
  neo_bright : Nat
  /-- level of `PIN_SOLENOID_VALVE` (`true` = HIGH = energised/open). -/
  valve_pin : Bool
deriving DecidableEq, Repr

/-- Initial values of the globals at power-on, before `setup()` runs
(`ds18_temp(NAN)`, `dht22_humi(NAN)`, `dht22_temp(NAN)`,
`is_valve_open = false`, `humi_threshold = 50`,
`open_valve_when_super_humi = true`, static ticks `0`, `toggle_LED = false`;
the NeoPixel and valve pin have not been driven yet). -/
def initGlobals : ChamberState where
  ds18_temp := none
  dht22_humi := none
  dht22_temp := none
  is_valve_open := false
  humi_threshold := 50
  open_valve_when_super_humi := true
  dht22_tick := 0
  ds18_tick := 0
  toggle_LED := false
  neo_color := ⟨0, 0, 0⟩
  neo_bright := 0
  valve_pin := false

/-- Modular 32-bit elapsed time `now - last` as computed by C `uint32_t`
subtraction: `(now + 2^32 - last) mod 2^32` after reducing both operands. -/
def elapsed32 (now last : Nat) : Nat :=
  ((now % 4294967296) + 4294967296 - (last % 4294967296)) % 4294967296

/-- C `strncmp(s, p, p.length) == 0`, i.e. `p` is a leading substring of `s`;
used for the `strncmp(strCmd, "th", 2) == 0` prefix test. -/
def strStartsWith (s p : String) : Bool :=
  s.data.take p.data.length = p.data

/-- Sanitisation of a fresh DS18B20 reading, from
`if (ds18_temp <= -126) { ds18_temp = NAN; }`: a reading at or below the
disconnect floor −126 °C becomes NaN (`none`). -/
def sanitizeDs18 (v : Option ℚ) : Option ℚ :=
  if floatLe v (-126) then none else v

/-- Health evaluation from the ds18 sampler block:
`isnan(dht22_humi) || isnan(dht22_temp) || isnan(ds18_temp)` selects red
(error), otherwise green (okay). -/
def evalHealthColor (dht22_humi dht22_temp ds18_temp : Option ℚ) : Color :=
  if isnan dht22_humi || isnan dht22_temp || isnan ds18_temp then colorRed
  else colorGreen

/-- Actuation policy from the valve-control section of `loop()`:
NaN humidity closes the valve, otherwise the valve opens exactly when
`(dht22_humi > humi_threshold && open_valve_when_super_humi) ||
 (dht22_humi < humi_threshold && !open_valve_when_super_humi)`. -/
def decideValve (humi : Option ℚ) (threshold : ℚ) (open_when_super : Bool) :
    Bool :=
  if isnan humi then false
  else (floatGt humi threshold && open_when_super) ||
       (floatLt humi threshold && !open_when_super)

/-- External inputs consumed by one iteration of `loop()`: the `millis()`
value, the values the sensor drivers would return if read this iteration,
and the pending serial command token, if any (`sc.available()`/`getCmd()`). -/
structure LoopInput where
  now : Nat
  dht22_humi_reading : Option ℚ
  dht22_temp_reading : Option ℚ
  ds18_reading : Option ℚ
  cmd : Option String
deriving DecidableEq, Repr

/-- One line written to the serial port by the command handler.  The
constructors carry the exact values handed to Arduino `String`/`println`:
`idLine` is the fixed identity string, `thLine` prints the threshold with 0
decimals, `statusLine` is the tab-separated report
`ds18_tick, ds18_temp (1 decimal), dht22_temp (1 decimal),
dht22_humi (1 decimal), is_valve_open`. -/
inductive SerialOut where
  | idLine : SerialOut
  | thLine : ℚ → SerialOut
  | statusLine : Nat → Option ℚ → Option ℚ → Option ℚ → Bool → SerialOut
deriving DecidableEq, Repr

/-- The serial-command if-chain at the end of `loop()`, for one available
command `strCmd`.  `parse` stands for the external library function
`parseFloatInString` applied to the command string and a start offset. -/
def handleCommand (parse : String → Nat → ℚ) (strCmd : String)
    (s : ChamberState) : ChamberState × Option SerialOut :=
  if strCmd = "id?" then
    (s, some SerialOut.idLine)
  else if strCmd = "th?" then
    (s, some (SerialOut.thLine s.humi_threshold))
  else if strStartsWith strCmd "th" then
    ({ s with humi_threshold := constrain (parse strCmd 2) 0 100 }, none)
  else if strCmd = "open when super humi" then
    ({ s with open_valve_when_super_humi := true }, none)
  else if strCmd = "open when sub humi" then
    ({ s with open_valve_when_super_humi := false }, none)
  else
    (s, some (SerialOut.statusLine s.ds18_tick s.ds18_temp s.dht22_temp
      s.dht22_humi s.is_valve_open))

/-- The valve-control section of `loop()`, verbatim: NaN humidity forces
the valve closed and the pin LOW, otherwise the threshold comparison with
the configured polarity opens or closes it.  `elapsed32 inp.now tick`
models the C expression `now - tick` on `uint32_t`. -/
def valveControl (s : ChamberState) : ChamberState :=
  if isnan s.dht22_humi then
    { s with is_valve_open := false, valve_pin := false }
  else if (floatGt s.dht22_humi s.humi_threshold &&
             s.open_valve_when_super_humi) ||
          (floatLt s.dht22_humi s.humi_threshold &&
             !s.open_valve_when_super_humi) then
    { s with is_valve_open := true, valve_pin := true }
  else
    { s with is_valve_open := false, valve_pin := false }

/-- One full iteration of `loop()`, translated statement by statement:
the DHT22 sampler block, the DS18B20 sampler block (with health color and
heartbeat), the automatic valve control, then at most one serial command. -/
def loopStep (parse : String → Nat → ℚ) (inp : LoopInput)
    (s : ChamberState) : ChamberState × Option SerialOut :=
  -- if (now - dht22_tick >= UPDATE_PERIOD_DHT22) { ... }
  let s :=
    if UPDATE_PERIOD_DHT22 ≤ elapsed32 inp.now s.dht22_tick then
      { s with dht22_tick := inp.now % 4294967296,
               dht22_humi := inp.dht22_humi_reading,
               dht22_temp := inp.dht22_temp_reading }
    else s
  -- if (now - ds18_tick >= UPDATE_PERIOD_DS18B20) { ... }
  let s :=
    if UPDATE_PERIOD_DS18B20 ≤ elapsed32 inp.now s.ds18_tick then
      let s := { s with ds18_tick := inp.now % 4294967296,
                        ds18_temp := sanitizeDs18 inp.ds18_reading }
      let s := { s with neo_color :=
                          evalHealthColor s.dht22_humi s.dht22_temp
                            s.ds18_temp }
      let s := { s with neo_bright :=
                          if s.toggle_LED then NEO_BRIGHT else NEO_DIM }
      { s with toggle_LED := !s.toggle_LED }
    else s
  -- automatic control of the valve depending on the humidity
  let s := valveControl s
  -- if (sc.available()) { ... }
  match inp.cmd with
  | none => (s, none)
  | some strCmd => handleCommand parse strCmd s

/-- Phase 1 of `loop()` in isolation: both sampler due-checks and, inside the
ds18 block, the health/indicator update — body identical to the first two
blocks of `loopStep`. -/
def samplePhase (inp : LoopInput) (s : ChamberState) : ChamberState :=
  let s :=
    if UPDATE_PERIOD_DHT22 ≤ elapsed32 inp.now s.dht22_tick then
      { s with dht22_tick := inp.now % 4294967296,
               dht22_humi := inp.dht22_humi_reading,
               dht22_temp := inp.dht22_temp_reading }
    else s
  if UPDATE_PERIOD_DS18B20 ≤ elapsed32 inp.now s.ds18_tick then
    let s := { s with ds18_tick := inp.now % 4294967296,
                      ds18_temp := sanitizeDs18 inp.ds18_reading }
    let s := { s with neo_color :=
                        evalHealthColor s.dht22_humi s.dht22_temp
                          s.ds18_temp }
    let s := { s with neo_bright :=
                        if s.toggle_LED then NEO_BRIGHT else NEO_DIM }
    { s with toggle_LED := !s.toggle_LED }
  else s

/-- Phase 2 of `loop()` in isolation: apply the actuation policy to the
cached humidity and drive the valve pin accordingly. -/
def actuatePhase (s : ChamberState) : ChamberState :=
  if decideValve s.dht22_humi s.humi_threshold s.open_valve_when_super_humi
  then { s with is_valve_open := true, valve_pin := true }
  else { s with is_valve_open := false, valve_pin := false }

/-- Phase 3 of `loop()` in isolation: handle at most one pending command. -/
def commandPhase (parse : String → Nat → ℚ) (cmd : Option String)
    (s : ChamberState) : ChamberState × Option SerialOut :=
  match cmd with
  | none => (s, none)
  | some strCmd => handleCommand parse strCmd s

/-- `setup()`: drive the valve pin LOW, show blue while acquiring the first
readings, store them unsanitised, then show green unconditionally.  Returns
the color shown during the acquisition together with the state at the end of
`setup()`.  The three arguments are what the sensor drivers return for the
startup acquisition. -/
def setupRun (ds18_reading dht22_humi_reading dht22_temp_reading : Option ℚ) :
    Color × ChamberState :=
  let s := initGlobals
  let s := { s with valve_pin := false }
  let s := { s with neo_color := colorBlue, neo_bright := NEO_BRIGHT }
  let during := s.neo_color
  let s := { s with ds18_temp := ds18_reading,
                    dht22_humi := dht22_humi_reading,
                    dht22_temp := dht22_temp_reading }
  let s := { s with neo_color := colorGreen, neo_bright := NEO_BRIGHT }
  (during, s)

/-- Command tokens recognised by a dedicated branch of the if-chain (the
spec's command table): everything else falls through to the status report. -/
def isRecognized (cmd : String) : Bool :=
  cmd = "id?" || cmd = "th?" || strStartsWith cmd "th" ||
  cmd = "open when super humi" || cmd = "open when sub humi"

/-- Trivial stand-in for the external `parseFloatInString` library function,
used to instantiate concrete scenarios: always returns 0. -/
def parse0 : String → Nat → ℚ := fun _ _ => 0

/-! ## Helper lemmas -/

/-- The inline valve-control block computes exactly the pure actuation
policy `decideValve` applied to the cached humidity and configuration. -/
theorem valveControl_eq_actuatePhase (s : ChamberState) :
    valveControl s = actuatePhase s := by
  unfold valveControl actuatePhase decideValve
  cases h : isnan s.dht22_humi <;> simp [h]

/-- `loop()` factors into its three phases in source order. -/
theorem loop_eq_phases (parse : String → Nat → ℚ) (inp : LoopInput)
    (s : ChamberState) :
    loopStep parse inp s =
      commandPhase parse inp.cmd (actuatePhase (samplePhase inp s)) := by
  rw [← valveControl_eq_actuatePhase]
  rfl

/-- A token matched by none of the five command branches falls through to
the status report and leaves the state untouched. -/
theorem handleCommand_unknown (parse : String → Nat → ℚ) (cmd : String)
    (s : ChamberState) (h : isRecognized cmd = false) :
    handleCommand parse cmd s =
      (s, some (SerialOut.statusLine s.ds18_tick s.ds18_temp s.dht22_temp
        s.dht22_humi s.is_valve_open)) := by
  simp only [isRecognized, Bool.or_eq_false_iff, decide_eq_false_iff_not] at h
  obtain ⟨⟨⟨⟨h1, h2⟩, h3⟩, h4⟩, h5⟩ := h
  simp [handleCommand, h1, h2, h3, h4, h5]

/-- `constrain` into `[0, 100]` always lands in `[0, 100]`. -/
theorem constrain_bounds (x : ℚ) :
    0 ≤ constrain x 0 100 ∧ constrain x 0 100 ≤ 100 := by
  unfold constrain
  split_ifs <;> constructor <;> linarith

/-- Projections of the sampler phase onto the two timer fields. -/
theorem samplePhase_ticks (inp : LoopInput) (s : ChamberState) :
    ((samplePhase inp s).ds18_tick =
      if UPDATE_PERIOD_DS18B20 ≤ elapsed32 inp.now s.ds18_tick
      then inp.now % 4294967296 else s.ds18_tick) ∧
    ((samplePhase inp s).dht22_tick =
      if UPDATE_PERIOD_DHT22 ≤ elapsed32 inp.now s.dht22_tick
      then inp.now % 4294967296 else s.dht22_tick) := by
  by_cases h1 : UPDATE_PERIOD_DHT22 ≤ elapsed32 inp.now s.dht22_tick <;>
  by_cases h2 : UPDATE_PERIOD_DS18B20 ≤ elapsed32 inp.now s.ds18_tick <;>
  simp [samplePhase, h1, h2]

/-- The actuation phase leaves `ds18_tick` alone. -/
theorem actuate_ds18_tick (s : ChamberState) :
    (actuatePhase s).ds18_tick = s.ds18_tick := by
  unfold actuatePhase; split <;> rfl

/-- The actuation phase leaves `dht22_tick` alone. -/
theorem actuate_dht22_tick (s : ChamberState) :
    (actuatePhase s).dht22_tick = s.dht22_tick := by
  unfold actuatePhase; split <;> rfl

/-- The actuation phase leaves `ds18_temp` alone. -/
theorem actuate_ds18_temp (s : ChamberState) :
    (actuatePhase s).ds18_temp = s.ds18_temp := by
  unfold actuatePhase; split <;> rfl

/-- The actuation phase leaves `dht22_temp` alone. -/
theorem actuate_dht22_temp (s : ChamberState) :
    (actuatePhase s).dht22_temp = s.dht22_temp := by
  unfold actuatePhase; split <;> rfl

/-- The actuation phase leaves `dht22_humi` alone. -/
theorem actuate_dht22_humi (s : ChamberState) :
    (actuatePhase s).dht22_humi = s.dht22_humi := by
  unfold actuatePhase; split <;> rfl

/-- The actuation phase leaves `humi_threshold` alone. -/
theorem actuate_humi_threshold (s : ChamberState) :
    (actuatePhase s).humi_threshold = s.humi_threshold := by
  unfold actuatePhase; split <;> rfl

/-- The actuation phase leaves the polarity flag alone. -/
theorem actuate_open_flag (s : ChamberState) :
    (actuatePhase s).open_valve_when_super_humi =
      s.open_valve_when_super_humi := by
  unfold actuatePhase; split <;> rfl

/-- The actuation phase leaves `toggle_LED` alone. -/
theorem actuate_toggle (s : ChamberState) :
    (actuatePhase s).toggle_LED = s.toggle_LED := by
  unfold actuatePhase; split <;> rfl

/-- The actuation phase leaves `neo_bright` alone. -/
theorem actuate_bright (s : ChamberState) :
    (actuatePhase s).neo_bright = s.neo_bright := by
  unfold actuatePhase; split <;> rfl

/-- The actuation phase leaves `neo_color` alone. -/
theorem actuate_color (s : ChamberState) :
    (actuatePhase s).neo_color = s.neo_color := by
  unfold actuatePhase; split <;> rfl

/-- The actuation phase stores exactly the policy decision. -/
theorem actuate_is_valve_open (s : ChamberState) :
    (actuatePhase s).is_valve_open =
      decideValve s.dht22_humi s.humi_threshold s.open_valve_when_super_humi
    := by
  unfold actuatePhase; split <;> simp_all

/-- The actuation phase drives the pin exactly to the policy decision. -/
theorem actuate_valve_pin (s : ChamberState) :
    (actuatePhase s).valve_pin =
      decideValve s.dht22_humi s.humi_threshold s.open_valve_when_super_humi
    := by
  unfold actuatePhase; split <;> simp_all

/-- The command phase leaves `ds18_tick` alone. -/
theorem commandPhase_ds18_tick (parse : String → Nat → ℚ)
    (oc : Option String) (s : ChamberState) :
    (commandPhase parse oc s).1.ds18_tick = s.ds18_tick := by
  rcases oc with _ | c
  · rfl
  · simp only [commandPhase, handleCommand]; split_ifs <;> rfl

/-- The command phase leaves `dht22_tick` alone. -/
theorem commandPhase_dht22_tick (parse : String → Nat → ℚ)
    (oc : Option String) (s : ChamberState) :
    (commandPhase parse oc s).1.dht22_tick = s.dht22_tick := by
  rcases oc with _ | c
  · rfl
  · simp only [commandPhase, handleCommand]; split_ifs <;> rfl

/-- The command phase leaves `toggle_LED` alone. -/
theorem commandPhase_toggle (parse : String → Nat → ℚ)
    (oc : Option String) (s : ChamberState) :
    (commandPhase parse oc s).1.toggle_LED = s.toggle_LED := by
  rcases oc with _ | c
  · rfl
  · simp only [commandPhase, handleCommand]; split_ifs <;> rfl

/-- The command phase leaves `neo_bright` alone. -/
theorem commandPhase_bright (parse : String → Nat → ℚ)
    (oc : Option String) (s : ChamberState) :
    (commandPhase parse oc s).1.neo_bright = s.neo_bright := by
  rcases oc with _ | c
  · rfl
  · simp only [commandPhase, handleCommand]; split_ifs <;> rfl

/-- The command phase leaves `neo_color` alone. -/
theorem commandPhase_color (parse : String → Nat → ℚ)
    (oc : Option String) (s : ChamberState) :
    (commandPhase parse oc s).1.neo_color = s.neo_color := by
  rcases oc with _ | c
  · rfl
  · simp only [commandPhase, handleCommand]; split_ifs <;> rfl

/-- The command phase leaves `is_valve_open` alone (the manual `0`/`1`
valve commands are commented out in this variant). -/
theorem commandPhase_is_valve_open (parse : String → Nat → ℚ)
    (oc : Option String) (s : ChamberState) :
    (commandPhase parse oc s).1.is_valve_open = s.is_valve_open := by
  rcases oc with _ | c
  · rfl
  · simp only [commandPhase, handleCommand]; split_ifs <;> rfl

/-- The command phase leaves the valve pin alone. -/
theorem commandPhase_valve_pin (parse : String → Nat → ℚ)
    (oc : Option String) (s : ChamberState) :
    (commandPhase parse oc s).1.valve_pin = s.valve_pin := by
  rcases oc with _ | c
  · rfl
  · simp only [commandPhase, handleCommand]; split_ifs <;> rfl

/-- Projections of a full loop iteration onto the two timer fields:
each timer fires exactly when `elapsed32` reaches its period, and firing
resets it to `now`. -/
theorem loopStep_ticks (parse : String → Nat → ℚ) (inp : LoopInput)
    (s : ChamberState) :
    ((loopStep parse inp s).1.ds18_tick =
      if UPDATE_PERIOD_DS18B20 ≤ elapsed32 inp.now s.ds18_tick
      then inp.now % 4294967296 else s.ds18_tick) ∧
    ((loopStep parse inp s).1.dht22_tick =
      if UPDATE_PERIOD_DHT22 ≤ elapsed32 inp.now s.dht22_tick
      then inp.now % 4294967296 else s.dht22_tick) := by
  constructor
  · rw [loop_eq_phases, commandPhase_ds18_tick, actuate_ds18_tick]
    exact (samplePhase_ticks inp s).1
  · rw [loop_eq_phases, commandPhase_dht22_tick, actuate_dht22_tick]
    exact (samplePhase_ticks inp s).2

/-! ## Claim theorems -/

/-- Claim C1: for every valid humidity reading and every configuration, the
actuation decision opens the valve exactly when `value > threshold` if
`open_valve_when_super_humi` is true, and exactly when `value < threshold`
if it is false; at `value = threshold` the decision is `false` for both
polarities (strict inequalities). -/
theorem valve_opens_iff_strict_threshold (v threshold : ℚ) (pol : Bool) :
    (decideValve (some v) threshold pol =
      if pol then decide (v > threshold) else decide (v < threshold)) ∧
    decideValve (some threshold) threshold pol = false := by
  constructor
  · cases pol <;> simp [decideValve, isnan, floatGt, floatLt, gt_iff_lt]
  · cases pol <;> simp [decideValve, isnan, floatGt, floatLt]

/-- Claim C2: whenever the cached humidity after this iteration's sensor
refresh is invalid (NaN), the loop iteration ends with the actuation
decision `false` and the valve pin driven LOW, regardless of the previous
valve state. -/
theorem humidity_invalid_forces_closed (parse : String → Nat → ℚ)
    (inp : LoopInput) (s : ChamberState)
    (h : (samplePhase inp s).dht22_humi = none) :
    (loopStep parse inp s).1.is_valve_open = false ∧
    (loopStep parse inp s).1.valve_pin = false := by
  have hval : actuatePhase (samplePhase inp s) =
      { samplePhase inp s with is_valve_open := false, valve_pin := false }
    := by
    simp [actuatePhase, decideValve, isnan, h]
  constructor
  · rw [loop_eq_phases, commandPhase_is_valve_open, hval]
  · rw [loop_eq_phases, commandPhase_valve_pin, hval]

/-- Witness for C2: a state with the valve previously open and latched HIGH,
and an iteration whose refreshed humidity is NaN, ends closed and LOW. -/
theorem humidity_invalid_forces_closed_witness :
    ((samplePhase ⟨1000, none, none, some 20, none⟩
        { initGlobals with is_valve_open := true, valve_pin := true
        }).dht22_humi = none) ∧
    ((loopStep parse0 ⟨1000, none, none, some 20, none⟩
        { initGlobals with is_valve_open := true, valve_pin := true
        }).1.is_valve_open = false ∧
     (loopStep parse0 ⟨1000, none, none, some 20, none⟩
        { initGlobals with is_valve_open := true, valve_pin := true
        }).1.valve_pin = false) :=
  ⟨by decide,
   humidity_invalid_forces_closed parse0 ⟨1000, none, none, some 20, none⟩
     { initGlobals with is_valve_open := true, valve_pin := true }
     (by decide)⟩

/-- Claim C3: the due-check compares `elapsed32` (modular 32-bit
subtraction `now - last_fire`) against the period, so on a monotonic
unwrapped clock the elapsed time is recovered exactly even across a
wraparound of the 32-bit millisecond counter, as long as less than `2^32`
ms passed; and firing resets the timer to `now`. -/
theorem sampler_wraparound_fires (trueNow trueLast : Nat)
    (h1 : trueLast ≤ trueNow) (h2 : trueNow - trueLast < 4294967296) :
    elapsed32 trueNow trueLast = trueNow - trueLast ∧
    (∀ (parse : String → Nat → ℚ) (inp : LoopInput) (s : ChamberState),
      ((loopStep parse inp s).1.ds18_tick =
        if UPDATE_PERIOD_DS18B20 ≤ elapsed32 inp.now s.ds18_tick
        then inp.now % 4294967296 else s.ds18_tick) ∧
      ((loopStep parse inp s).1.dht22_tick =
        if UPDATE_PERIOD_DHT22 ≤ elapsed32 inp.now s.dht22_tick
        then inp.now % 4294967296 else s.dht22_tick)) := by
  constructor
  · unfold elapsed32; omega
  · exact fun parse inp s => loopStep_ticks parse inp s

/-- Witness for C3: the true clock runs from 4294966796 ms (500 ms before
the 32-bit wrap) to 4294967896 ms (600 ms after it, so `millis()` reads
600); the computed elapsed time is 1100 ms, the ds18 channel fires, and its
timer resets to the wrapped `now` value 600. -/
theorem sampler_wraparound_fires_witness :
    elapsed32 4294967896 4294966796 = 1100 ∧
    (loopStep parse0 ⟨600, none, none, some 20, none⟩
      { initGlobals with ds18_tick := 4294966796, dht22_tick := 4294966796
      }).1.ds18_tick = 600 := by
  have h := sampler_wraparound_fires 4294967896 4294966796
    (by decide) (by decide)
  refine ⟨h.1, ?_⟩
  rw [(h.2 parse0 ⟨600, none, none, some 20, none⟩
    { initGlobals with ds18_tick := 4294966796, dht22_tick := 4294966796
    }).1]
  decide

/-- Counterexample to claim C4 as stated: the indicator is recomputed on
firings of the ds18 channel, whose 1000 ms period is the shorter one.  In
the concrete iteration below the slower dht22 channel (2000 ms, the longer
period) does not fire — its timer is untouched — yet the heartbeat parity,
brightness and color are all updated. -/
theorem indicator_slow_channel_counterexample :
    UPDATE_PERIOD_DS18B20 < UPDATE_PERIOD_DHT22 ∧
    elapsed32 1000 initGlobals.dht22_tick < UPDATE_PERIOD_DHT22 ∧
    (loopStep parse0 ⟨1000, none, none, some 20, none⟩
      initGlobals).1.dht22_tick = initGlobals.dht22_tick ∧
    ((loopStep parse0 ⟨1000, none, none, some 20, none⟩
      initGlobals).1.toggle_LED ≠ initGlobals.toggle_LED) ∧
    ((loopStep parse0 ⟨1000, none, none, some 20, none⟩
      initGlobals).1.neo_bright ≠ initGlobals.neo_bright) ∧
    ((loopStep parse0 ⟨1000, none, none, some 20, none⟩
      initGlobals).1.neo_color ≠ initGlobals.neo_color) := by
  decide

/-- Claim C4 as amended: the indicator color and heartbeat are recomputed
exactly on firings of the ds18 channel — the channel with the shorter
sampling period (1000 ms versus the dht22's 2000 ms).  Each such firing
flips the parity bit and renders brightness bright on one parity and dim on
the other, and recomputes the color from the freshly sampled cache; on
iterations where the ds18 channel does not fire, the indicator state is
untouched. -/
theorem indicator_heartbeat_on_ds18_channel (parse : String → Nat → ℚ)
    (inp : LoopInput) (s : ChamberState) :
    UPDATE_PERIOD_DS18B20 < UPDATE_PERIOD_DHT22 ∧
    ((loopStep parse inp s).1.toggle_LED,
     (loopStep parse inp s).1.neo_bright,
     (loopStep parse inp s).1.neo_color) =
      (if UPDATE_PERIOD_DS18B20 ≤ elapsed32 inp.now s.ds18_tick then
        (!s.toggle_LED,
         if s.toggle_LED then NEO_BRIGHT else NEO_DIM,
         evalHealthColor (samplePhase inp s).dht22_humi
           (samplePhase inp s).dht22_temp (samplePhase inp s).ds18_temp)
       else (s.toggle_LED, s.neo_bright, s.neo_color)) := by
  refine ⟨by decide, ?_⟩
  rw [loop_eq_phases, commandPhase_toggle, commandPhase_bright,
    commandPhase_color, actuate_toggle, actuate_bright, actuate_color]
  by_cases h1 : UPDATE_PERIOD_DHT22 ≤ elapsed32 inp.now s.dht22_tick <;>
  by_cases h2 : UPDATE_PERIOD_DS18B20 ≤ elapsed32 inp.now s.ds18_tick <;>
  simp [samplePhase, h1, h2]

/-- Counterexample to claim C5 as stated: booting with both sensors failing
(ds18 returns the −127 disconnect sentinel, both dht readings NaN) gives
readings whose health evaluates to ERROR (red), yet the indicator at the
end of `setup()` is the OK color (green), not red: `setup()` sets green
unconditionally. -/
theorem setup_indicator_counterexample :
    evalHealthColor none none (sanitizeDs18 (some (-127))) = colorRed ∧
    (setupRun (some (-127)) none none).2.neo_color = colorGreen ∧
    colorGreen ≠ colorRed := by
  decide

/-- Claim C5 as amended: during the synchronous startup acquisition the
indicator shows the distinct SETUP color (blue); immediately after it is
set unconditionally to the OK color (green), regardless of the health of
the just-acquired readings; the first health-based evaluation happens at
the first ds18 firing of the main cycle, where booting with both sensors
failing yields the ERROR color and the valve forced closed. -/
theorem setup_indicator_sequence (r h t : Option ℚ) :
    (setupRun r h t).1 = colorBlue ∧
    (setupRun r h t).2.neo_color = colorGreen ∧
    ((loopStep parse0 ⟨1000, none, none, some (-127), none⟩
        (setupRun (some (-127)) none none).2).1.neo_color = colorRed ∧
     (loopStep parse0 ⟨1000, none, none, some (-127), none⟩
        (setupRun (some (-127)) none none).2).1.is_valve_open = false ∧
     (loopStep parse0 ⟨1000, none, none, some (-127), none⟩
        (setupRun (some (-127)) none none).2).1.valve_pin = false) :=
  ⟨rfl, rfl, by decide⟩

/-- Claim C6: a command token matching none of the recognized commands is
never an error: the interpreter leaves the state untouched and emits the
default tab-separated status line — last ds18 sample timestamp, ds18
temperature, dht temperature, dht humidity (each handed to the 1-decimal
formatter), and the valve-open boolean — exactly as a status request
would. -/
theorem unknown_token_status_line (parse : String → Nat → ℚ) (cmd : String)
    (s : ChamberState) (h : isRecognized cmd = false) :
    handleCommand parse cmd s =
      (s, some (SerialOut.statusLine s.ds18_tick s.ds18_temp s.dht22_temp
        s.dht22_humi s.is_valve_open)) :=
  handleCommand_unknown parse cmd s h

/-- Witness for C6: the unknown token `status` produces the default
status line over the initial state. -/
theorem unknown_token_status_line_witness :
    handleCommand parse0 "status" initGlobals =
      (initGlobals, some (SerialOut.statusLine 0 none none none false)) := by
  rw [unknown_token_status_line parse0 "status" initGlobals (by decide)]
  decide

/-- Claim C7: a threshold-set command stores `constrain(n, 0, 100)` of the
parsed number `n`: 150 stores 100, −5 stores 0, any `n` already in
`[0, 100]` is stored unchanged, and the stored threshold always lies in
`[0, 100]`. -/
theorem threshold_clamp (parse : String → Nat → ℚ) (cmd : String)
    (s : ChamberState) (h1 : strStartsWith cmd "th" = true)
    (h2 : cmd ≠ "th?") :
    ((handleCommand parse cmd s).1.humi_threshold =
      constrain (parse cmd 2) 0 100) ∧
    (0 ≤ (handleCommand parse cmd s).1.humi_threshold ∧
      (handleCommand parse cmd s).1.humi_threshold ≤ 100) ∧
    (constrain 150 0 100 = 100 ∧ constrain (-5) 0 100 = 0) ∧
    (∀ n : ℚ, 0 ≤ n → n ≤ 100 → constrain n 0 100 = n) := by
  have hid : cmd ≠ "id?" := by
    intro he; rw [he] at h1; exact absurd h1 (by decide)
  have hcmd : handleCommand parse cmd s =
      ({ s with humi_threshold := constrain (parse cmd 2) 0 100 }, none) := by
    simp [handleCommand, hid, h2, h1]
  refine ⟨by rw [hcmd], ?_, ⟨by decide, by decide⟩, ?_⟩
  · rw [hcmd]
    exact constrain_bounds (parse cmd 2)
  · intro n hn1 hn2
    unfold constrain
    split_ifs <;> linarith

/-- Witness for C7: storing 150 through `th150` clamps to 100, storing −5
through `th-5` clamps to 0, and 37 is in range and kept. -/
theorem threshold_clamp_witness :
    ((handleCommand (fun _ _ => (150 : ℚ)) "th150"
        initGlobals).1.humi_threshold = 100) ∧
    ((handleCommand (fun _ _ => (-5 : ℚ)) "th-5"
        initGlobals).1.humi_threshold = 0) ∧
    constrain 37 0 100 = 37 := by
  have hA := threshold_clamp (fun _ _ => (150 : ℚ)) "th150" initGlobals
    (by decide) (by decide)
  have hB := threshold_clamp (fun _ _ => (-5 : ℚ)) "th-5" initGlobals
    (by decide) (by decide)
  refine ⟨?_, ?_, hA.2.2.2 37 (by decide) (by decide)⟩
  · rw [hA.1]; decide
  · rw [hB.1]; decide

/-- Claim C8: the health evaluation yields the ERROR color (red) exactly
when at least one of the three tracked readings is invalid, and the OK
color (green) otherwise; a ds18 reading at or below the −126 disconnect
floor is sanitised to invalid. -/
theorem health_error_iff_any_invalid (humi temp ds18 : Option ℚ) (x : ℚ) :
    (evalHealthColor humi temp ds18 = colorRed ↔
      (humi = none ∨ temp = none ∨ ds18 = none)) ∧
    (evalHealthColor humi temp ds18 = colorGreen ↔
      ¬(humi = none ∨ temp = none ∨ ds18 = none)) ∧
    (sanitizeDs18 (some x) = none ↔ x ≤ -126) := by
  refine ⟨?_, ?_, ?_⟩
  · rcases humi with _ | a <;> rcases temp with _ | b <;>
      rcases ds18 with _ | c <;>
      simp [evalHealthColor, isnan, colorRed, colorGreen]
  · rcases humi with _ | a <;> rcases temp with _ | b <;>
      rcases ds18 with _ | c <;>
      simp [evalHealthColor, isnan, colorRed, colorGreen]
  · by_cases hx : x ≤ -126 <;> simp [sanitizeDs18, floatLe, hx]

/-- Claim C9: one loop iteration is exactly the composition, in source
order, of the sampler phase (both due-checks), the actuation phase, and the
command phase handling at most one command; consequently a status report
emitted in an iteration carries that same iteration's freshly sampled
cache values and this iteration's valve decision. -/
theorem main_cycle_phase_order (parse : String → Nat → ℚ) (inp : LoopInput)
    (s : ChamberState) (c : String) (h1 : inp.cmd = some c)
    (h2 : isRecognized c = false) :
    (loopStep parse inp s =
      commandPhase parse inp.cmd (actuatePhase (samplePhase inp s))) ∧
    (loopStep parse inp s).2 =
      some (SerialOut.statusLine (samplePhase inp s).ds18_tick
        (samplePhase inp s).ds18_temp (samplePhase inp s).dht22_temp
        (samplePhase inp s).dht22_humi
        (decideValve (samplePhase inp s).dht22_humi
          (samplePhase inp s).humi_threshold
          (samplePhase inp s).open_valve_when_super_humi)) := by
  refine ⟨loop_eq_phases parse inp s, ?_⟩
  rw [loop_eq_phases parse inp s, h1]
  show (handleCommand parse c (actuatePhase (samplePhase inp s))).2 = _
  rw [handleCommand_unknown parse c _ h2]
  rw [actuate_ds18_tick, actuate_ds18_temp, actuate_dht22_temp,
    actuate_dht22_humi, actuate_is_valve_open]

/-- Witness for C9: a concrete iteration at 1000 ms with an unknown token
reports the ds18 timestamp and temperature sampled in this very iteration
and the valve decision of this very iteration. -/
theorem main_cycle_phase_order_witness :
    (loopStep parse0 ⟨1000, none, none, some 20, some "status"⟩
      initGlobals).2 =
      some (SerialOut.statusLine 1000 (some 20) none none false) := by
  have h := main_cycle_phase_order parse0
    ⟨1000, none, none, some 20, some "status"⟩ initGlobals "status"
    rfl (by decide)
  rw [h.2]
  decide

/-- Claim C10: every token beginning with `th` that is not exactly `th?`
is treated as a threshold-set command: the threshold is overwritten with
the clamped parsed number and no output at all is emitted — in particular
no status report. -/
theorem th_prefix_token_sets_threshold (parse : String → Nat → ℚ)
    (cmd : String) (s : ChamberState) (h1 : strStartsWith cmd "th" = true)
    (h2 : cmd ≠ "th?") :
    handleCommand parse cmd s =
      ({ s with humi_threshold := constrain (parse cmd 2) 0 100 }, none) := by
  have hid : cmd ≠ "id?" := by
    intro he; rw [he] at h1; exact absurd h1 (by decide)
  simp [handleCommand, hid, h2, h1]

/-- Witness for C10: the word `this` is silently swallowed as a
threshold-set command — the threshold is overwritten (here with the
clamped parse fallback 0, overwriting the default 50) and no status line
is produced. -/
theorem th_prefix_token_sets_threshold_witness :
    handleCommand parse0 "this" initGlobals =
      ({ initGlobals with humi_threshold := 0 }, none) := by
  rw [th_prefix_token_sets_threshold parse0 "this" initGlobals
    (by decide) (by decide)]
  decide

